import Mathlib

/-!
Shallow embedding of the Truck Stop repository's two core components:

* `NavigationManager` (src/app/components/navigation.py): a fixed list of
  navigation items filtered by the authentication flag, breadcrumbs and
  redirect decisions.
* `SDKManager` (src/app/core/sdk_manager.py): a name-keyed registry of
  external-service adapters, and the concrete `FirebaseSDK` adapter
  (src/app/firebase/firebase_sdk.py).

Python dictionaries are modelled as association lists with first-match
lookup and in-place overwrite; Python exceptions are modelled with
`Except`; the mutable adapter/registry state is passed explicitly.
-/

namespace TruckStop

/-! ## Association-list model of Python dict -/

/-- Python `d.get(k)` / `d[k]`: first entry whose key matches. -/
def dictGet {α : Type} : List (String × α) → String → Option α
  | [], _ => Option.none
  | p :: rest, k => if p.1 = k then some p.2 else dictGet rest k

/-- Python `d[k] = v`: overwrite the entry for `k` in place, else append. -/
def dictSet {α : Type} : List (String × α) → String → α → List (String × α)
  | [], k, v => [(k, v)]
  | p :: rest, k, v => if p.1 = k then (k, v) :: rest else p :: dictSet rest k v

/-- Python `k in d`. -/
def hasKey {α : Type} (d : List (String × α)) (k : String) : Bool :=
  (dictGet d k).isSome

/-! ## Navigation data model (navigation.py) -/

/-- The `NavItem` dataclass: name, endpoint, title, requires_auth, requires_guest,
icon, children (a Python `None`-able list). -/
inductive NavItem where
  | mk (name endpoint title : String) (requires_auth requires_guest : Bool)
       (icon : String) (children : Option (List NavItem)) : NavItem

def NavItem.name : NavItem → String
  | .mk n _ _ _ _ _ _ => n

def NavItem.endpoint : NavItem → String
  | .mk _ e _ _ _ _ _ => e

def NavItem.title : NavItem → String
  | .mk _ _ t _ _ _ _ => t

def NavItem.requires_auth : NavItem → Bool
  | .mk _ _ _ ra _ _ _ => ra

def NavItem.requires_guest : NavItem → Bool
  | .mk _ _ _ _ rg _ _ => rg

def NavItem.icon : NavItem → String
  | .mk _ _ _ _ _ i _ => i

def NavItem.children : NavItem → Option (List NavItem)
  | .mk _ _ _ _ _ _ c => c

/-- The fixed navigation list built by `NavigationManager._setup_navigation`. -/
def navItems : List NavItem :=
  [ .mk "signin" "auth.signin" "Sign In" false true "🔐" Option.none,
    .mk "register" "auth.register" "Register" false true "📝" Option.none,
    .mk "dashboard" "dashboard.index" "Dashboard" true false "📊" Option.none,
    .mk "companies" "companies.index" "Companies" true false "🏢" Option.none,
    .mk "developers" "developers.index" "Developers" false false "👨‍💻" Option.none ]

/-- A rendered child entry in the `get_navigation` output. -/
structure ChildView where
  name : String
  endpoint : String
  title : String
  icon : String
  is_active : Bool
deriving DecidableEq

/-- A rendered entry in the `get_navigation` output. -/
structure NavView where
  name : String
  endpoint : String
  title : String
  icon : String
  is_active : Bool
  children : Option (List ChildView)
deriving DecidableEq

/-- Model of `_is_active_route`: compares an endpoint with the current request endpoint;
outside a request context (`Option.none`) it returns false. -/
def is_active_route (current : Option String) (endpoint : String) : Bool :=
  match current with
  | some c => endpoint = c
  | Option.none => false

def renderChild (current : Option String) (c : NavItem) : ChildView :=
  ⟨c.name, c.endpoint, c.title, c.icon, is_active_route current c.endpoint⟩

/-- One dictionary appended by `get_navigation` for an included item
(`'children'` is `None` unless `item.children` is truthy). -/
def renderItem (current : Option String) (item : NavItem) : NavView :=
  ⟨item.name, item.endpoint, item.title, item.icon,
   is_active_route current item.endpoint,
   match item.children with
   | some cs => if cs.isEmpty then Option.none else some (cs.map (renderChild current))
   | Option.none => Option.none⟩

/-- The filter condition of `get_navigation`: the loop `continue`s when
`item.requires_auth and not user_authenticated` or
`item.requires_guest and user_authenticated`. -/
def navIncluded (user_authenticated : Bool) (item : NavItem) : Bool :=
  !(item.requires_auth && !user_authenticated) && !(item.requires_guest && user_authenticated)

/-- Embeds `NavigationManager.get_navigation`. -/
def get_navigation (user_authenticated : Bool) (current : Option String) : List NavView :=
  (navItems.filter (navIncluded user_authenticated)).map (renderItem current)

/-- One breadcrumb dictionary. -/
structure Breadcrumb where
  title : String
  url : String
  endpoint : String
deriving DecidableEq

/-- The `endpoint_map` literal inside `get_breadcrumbs`. -/
def endpoint_map : List (String × String) :=
  [ ("auth.signin", "Sign In"),
    ("auth.register", "Register"),
    ("dashboard.index", "Dashboard"),
    ("companies.index", "Companies"),
    ("companies.create", "Create Company"),
    ("companies.detail", "Company Details"),
    ("developers.index", "Developers") ]

/-- Model of `_get_url_for_endpoint`: fixed endpoint → URL map, defaulting to "/". -/
def get_url_for_endpoint (endpoint : String) : String :=
  (dictGet
    [ ("main.index", "/"),
      ("auth.signin", "/auth/signin"),
      ("auth.register", "/auth/register"),
      ("dashboard.index", "/dashboard"),
      ("companies.index", "/companies"),
      ("companies.create", "/companies/create"),
      ("developers.index", "/developers") ] endpoint).getD "/"

/-- Embeds `NavigationManager.get_breadcrumbs`. -/
def get_breadcrumbs (current_endpoint : String) : List Breadcrumb :=
  let home : Breadcrumb := ⟨"Home", "/", "main.index"⟩
  if hasKey endpoint_map current_endpoint && !(current_endpoint == "main.index") then
    [home, ⟨(dictGet endpoint_map current_endpoint).getD "",
            get_url_for_endpoint current_endpoint, current_endpoint⟩]
  else
    [home]

/-- Model of `NavigationManager.should_redirect`: first nav item whose endpoint equals
the given endpoint decides the redirect. -/
def should_redirect (user_authenticated : Bool) (endpoint : String) : Option String :=
  match navItems.find? (fun item => item.endpoint == endpoint) with
  | some item =>
      if item.requires_auth && !user_authenticated then some "auth.signin"
      else if item.requires_guest && user_authenticated then some "dashboard.index"
      else Option.none
  | Option.none => Option.none

/-! ## SDK registry (sdk_manager.py)

The abstract `SDK` base class (core/sdk.py) is a capability record over an
adapter-state type `σ`; methods that may raise a Python exception return
`Except String`. A method call both returns a value and yields the adapter's
(possibly mutated) state. -/

structure SDKOps (σ : Type) where
  init : σ → Option (List (String × String)) → Except String (Bool × σ)
  is_initialized : σ → Bool
  cleanup : σ → Except String (Bool × σ)
  get_config : σ → List (String × String)

/-- The registry's `_sdks` dict: name → adapter state. -/
abbrev Registry (σ : Type) : Type := List (String × σ)

/-- Model of `SDKManager.register_sdk`: calls `sdk.initialize(config)` inside
`try/except`; stores the adapter and returns true only when `initialize`
returned true. -/
def register_sdk {σ : Type} (ops : SDKOps σ) (reg : Registry σ) (name : String)
    (sdk : σ) (config : Option (List (String × String))) : Bool × Registry σ :=
  match SDKOps.init ops sdk config with
  | .ok (true, sdk') => (true, dictSet reg name sdk')
  | .ok (false, _) => (false, reg)
  | .error _ => (false, reg)

/-- Embeds `SDKManager.get_sdk`. -/
def get_sdk {σ : Type} (reg : Registry σ) (name : String) : Option σ :=
  dictGet reg name

/-- Embeds `SDKManager.is_initialized`. -/
def manager_is_initialized {σ : Type} (ops : SDKOps σ) (reg : Registry σ)
    (name : String) : Bool :=
  match get_sdk reg name with
  | some sdk => ops.is_initialized sdk
  | Option.none => false

/-- The `for name, sdk in self._sdks.items(): sdk.cleanup()` loop of
`cleanup_all`. There is no `try/except`: an exception aborts the loop, and the
error carries the dict as it stands then (earlier adapters mutated in place,
the raising one and the rest untouched). -/
def cleanupLoop {σ : Type} (ops : SDKOps σ) (done : Registry σ) :
    List (String × σ) → Except (String × Registry σ) (Registry σ)
  | [] => .ok done
  | (n, s) :: rest =>
      match ops.cleanup s with
      | .ok (_, s') => cleanupLoop ops (done ++ [(n, s')]) rest
      | .error e => .error (e, done ++ (n, s) :: rest)

/-- Model of `SDKManager.cleanup_all`: run every cleanup, then `self._sdks.clear()`.
A raised exception propagates; the registry is then left uncleared. -/
def cleanup_all {σ : Type} (ops : SDKOps σ) (reg : Registry σ) :
    Except (String × Registry σ) (Registry σ) :=
  match cleanupLoop ops [] reg with
  | .ok _ => .ok []
  | .error p => .error p

/-- Model of `SDKManager.get_status`: name → (initialized, config) for every entry. -/
def get_status {σ : Type} (ops : SDKOps σ) (reg : Registry σ) :
    List (String × (Bool × List (String × String))) :=
  reg.map (fun p => (p.1, (ops.is_initialized p.2, ops.get_config p.2)))

/-! ## Firebase adapter (firebase_sdk.py) -/

/-- A Python value as it appears in a Firebase configuration dict:
`None`, a string, or a nested dict (the parsed service-account JSON blob). -/
inductive PyVal where
  | none
  | str (s : String)
  | dict (d : List (String × PyVal))

/-- Python truthiness for the values above (`None`, `""` and `{}` are falsy). -/
def PyVal.truthy : PyVal → Bool
  | .none => false
  | .str s => !(s == "")
  | .dict d => !d.isEmpty

/-- A Firebase configuration dict. -/
abbrev FConfig : Type := List (String × PyVal)

/-- The credential object built by `credentials.Certificate(...)`, tagged by
which of the three configuration sources produced it. -/
inductive Cred where
  | fromBlob (blob : PyVal)
  | fromPath (path : PyVal)
  | fromFields (info : List (String × PyVal))

/-- The `service_account_info` dict assembled for the discrete-fields source. -/
def serviceAccountInfo (config : FConfig) : List (String × PyVal) :=
  [ ("type", .str "service_account"),
    ("project_id", (dictGet config "project_id").getD .none),
    ("private_key_id", (dictGet config "private_key_id").getD (.str "")),
    ("private_key", (dictGet config "private_key").getD .none),
    ("client_email", (dictGet config "client_email").getD .none),
    ("client_id", (dictGet config "client_id").getD (.str "")),
    ("auth_uri", .str "https://accounts.google.com/o/oauth2/auth"),
    ("token_uri", .str "https://oauth2.googleapis.com/token"),
    ("auth_provider_x509_cert_url", .str "https://www.googleapis.com/oauth2/v1/certs"),
    ("client_x509_cert_url", (dictGet config "client_x509_cert_url").getD (.str "")),
    ("universe_domain", .str "googleapis.com") ]

/-- The credential-source selection of `FirebaseSDK.initialize` (lines 88-111):
`'service_account_json' in config`, elif `'credential_path' in config`, elif
all of project_id/private_key/client_email are keys of config, else no source. -/
def selectCred (config : FConfig) : Option Cred :=
  if hasKey config "service_account_json" then
    some (.fromBlob ((dictGet config "service_account_json").getD .none))
  else if hasKey config "credential_path" then
    some (.fromPath ((dictGet config "credential_path").getD .none))
  else if hasKey config "project_id" && hasKey config "private_key"
          && hasKey config "client_email" then
    some (.fromFields (serviceAccountInfo config))
  else
    Option.none

/-- The credential-source order as the spec words it (blob, then discrete
fields, then filesystem path) — for comparison with `selectCred`. -/
def selectCredSpecOrder (config : FConfig) : Option Cred :=
  if hasKey config "service_account_json" then
    some (.fromBlob ((dictGet config "service_account_json").getD .none))
  else if hasKey config "project_id" && hasKey config "private_key"
          && hasKey config "client_email" then
    some (.fromFields (serviceAccountInfo config))
  else if hasKey config "credential_path" then
    some (.fromPath ((dictGet config "credential_path").getD .none))
  else
    Option.none

/-- The `FirebaseSDK` instance state (`_app`, `_config`, `_initialized`, `_error`).
The `firebase_admin` app handle is identified with its credential. -/
structure FirebaseSDK where
  app : Option Cred
  config : FConfig
  initialized : Bool
  error : Option String

/-- The state set up by `FirebaseSDK.__init__`. -/
def FirebaseSDK.start : FirebaseSDK :=
  ⟨Option.none, [], false, Option.none⟩

/-- The process-wide `firebase_admin._apps` list; `initialize_app` appends,
`get_app` returns the first (default) app. -/
abbrev AdminApps : Type := List Cred

/-- Option 2 of `_load_from_env`: the discrete `FIREBASE_*` environment
variables, with literal `\n` sequences in the private key replaced by real
newlines, and the three mandatory fields checked for truthiness. -/
def FirebaseSDK.load_discrete_env (sdk : FirebaseSDK) (env : List (String × String)) :
    FConfig × FirebaseSDK :=
  let private_key : Option String :=
    match dictGet env "FIREBASE_PRIVATE_KEY" with
    | some pk => if pk == "" then some pk else some (pk.replace "\\n" "\n")
    | Option.none => Option.none
  let toVal : Option String → PyVal := fun o =>
    match o with
    | some s => .str s
    | Option.none => .none
  let config : FConfig :=
    [ ("project_id", toVal (dictGet env "FIREBASE_PROJECT_ID")),
      ("private_key", toVal private_key),
      ("client_email", toVal (dictGet env "FIREBASE_CLIENT_EMAIL")),
      ("private_key_id", toVal (dictGet env "FIREBASE_PRIVATE_KEY_ID")),
      ("client_id", toVal (dictGet env "FIREBASE_CLIENT_ID")) ]
  if !((dictGet config "project_id").getD .none).truthy
      || !((dictGet config "private_key").getD .none).truthy
      || !((dictGet config "client_email").getD .none).truthy then
    ([], { sdk with error := some "Configuración mínima de Firebase no encontrada en variables de entorno" })
  else
    (config, sdk)

/-- Model of `FirebaseSDK._load_from_env`. The environment is an association list
(`os.getenv` = lookup); `jsonLoads` abstracts `json.loads` on the service
account blob, `Option.none` meaning a `JSONDecodeError`. Returns the loaded
config and the adapter state (whose `_error` the method may set). -/
def FirebaseSDK.load_from_env (sdk : FirebaseSDK) (env : List (String × String))
    (jsonLoads : String → Option (List (String × PyVal))) : FConfig × FirebaseSDK :=
  match dictGet env "FIREBASE_SERVICE_ACCOUNT_JSON" with
  | some s =>
      if s == "" then FirebaseSDK.load_discrete_env sdk env
      else
        match jsonLoads s with
        | some d => ([("service_account_json", .dict d)], sdk)
        | Option.none =>
            ([], { sdk with error := some "Error parsing FIREBASE_SERVICE_ACCOUNT_JSON" })
  | Option.none => FirebaseSDK.load_discrete_env sdk env

/-- Model of `FirebaseSDK.initialize`. Returns the boolean result, the adapter
state and the `firebase_admin._apps` state. `cert` abstracts the external
`credentials.Certificate` constructor, which raises on malformed credential
material (a garbage blob, a bad path, invalid key fields); such a raise is
caught by the method's outer `try/except` (lines 130-134), which records
`"Error inicializando Firebase SDK: {e}"` and returns false. -/
def FirebaseSDK.initialize (sdk : FirebaseSDK) (apps : AdminApps)
    (env : List (String × String)) (jsonLoads : String → Option (List (String × PyVal)))
    (cert : Cred → Except String Cred) (config? : Option FConfig) :
    Bool × FirebaseSDK × AdminApps :=
  if sdk.initialized then (true, sdk, apps)
  else
    let loaded : FConfig × FirebaseSDK :=
      match config? with
      | some c => (c, sdk)
      | Option.none => sdk.load_from_env env jsonLoads
    let config := loaded.1
    let sdk := loaded.2
    if config.isEmpty then (false, { sdk with initialized := false }, apps)
    else
      let sdk := { sdk with config := config }
      if apps.isEmpty then
        match selectCred config with
        | some cred0 =>
            match cert cred0 with
            | .ok cred =>
                (true, { sdk with app := some cred, initialized := true }, apps ++ [cred])
            | .error e =>
                (false, { sdk with error := some ("Error inicializando Firebase SDK: " ++ e),
                                   initialized := false }, apps)
        | Option.none =>
            (false, { sdk with error := some "Configuración de Firebase incompleta",
                               initialized := false }, apps)
      else
        (true, { sdk with app := apps.head?, initialized := true }, apps)

/-- Embeds `FirebaseSDK.is_initialized`. -/
def FirebaseSDK.is_initialized (sdk : FirebaseSDK) : Bool :=
  sdk.initialized && sdk.app.isSome

/-- Embeds `FirebaseSDK.get_error`. -/
def FirebaseSDK.get_error (sdk : FirebaseSDK) : Option String :=
  sdk.error

/-- Python's `needle in hay` on strings (substring test), on character lists. -/
def charsInfix (needle : List Char) : List Char → Bool
  | [] => needle.isEmpty
  | c :: rest => List.isPrefixOf needle (c :: rest) || charsInfix needle rest

/-- The first masking step of `FirebaseSDK.get_config`: hide a top-level
`private_key` in a copy of the configuration. -/
def maskTop (c : FConfig) : FConfig :=
  if hasKey c "private_key" then dictSet c "private_key" (.str "***HIDDEN***") else c

/-- Model of `FirebaseSDK.get_config`: copies `_config`, masks a top-level
`private_key`, and masks `private_key` inside a `service_account_json` value.
On a non-dict `service_account_json` Python's `in`/item assignment can raise
(`TypeError`), modelled with `Except`: for a string value, `'private_key' in s`
is a substring test and the subsequent item assignment always raises. -/
def FirebaseSDK.get_config (sdk : FirebaseSDK) : Except String FConfig :=
  let safe := maskTop sdk.config
  match dictGet safe "service_account_json" with
  | some (.dict d) =>
      if hasKey d "private_key" then
        .ok (dictSet safe "service_account_json"
              (.dict (dictSet d "private_key" (.str "***HIDDEN***"))))
      else .ok safe
  | some (.str s) =>
      if charsInfix "private_key".toList s.toList then .error "TypeError"
      else .ok safe
  | some .none => .error "TypeError"
  | Option.none => .ok safe

/-! ## Concrete fixtures used by witnesses and counterexamples -/

/-- A small concrete adapter over `Nat` state: `init` succeeds from state 0,
reports failure from state 1 and raises otherwise; `cleanup` raises from
state 0 and otherwise succeeds, bumping the state by 100. -/
def natOps : SDKOps Nat :=
  ⟨fun s _ => if s = 0 then .ok (true, s + 1)
              else if s = 1 then .ok (false, s) else .error "init boom",
   fun s => !(s == 0),
   fun s => if s = 0 then .error "boom" else .ok (true, s + 100),
   fun _ => []⟩

/-- A `json.loads` stand-in that always fails to parse. -/
def jlNone : String → Option (List (String × PyVal)) := fun _ => Option.none

/-- A `credentials.Certificate` stand-in that accepts any material. -/
def certAccept : Cred → Except String Cred := fun c => .ok c

/-- A `credentials.Certificate` stand-in that rejects any material. -/
def certReject : Cred → Except String Cred := fun _ => .error "invalid credential"

/-- A configuration offering both the filesystem-path source and all three
discrete credential fields. -/
def cfgBoth : FConfig :=
  [ ("credential_path", .str "/tmp/sa.json"),
    ("project_id", .str "p"),
    ("private_key", .str "k"),
    ("client_email", .str "e") ]

/-- A configuration with a top-level private key and a service-account blob
holding another private key. -/
def cfgSecret : FConfig :=
  [ ("project_id", .str "p"),
    ("private_key", .str "SECRET-TOP"),
    ("client_email", .str "e"),
    ("service_account_json",
      .dict [("private_key", .str "SECRET-BLOB"), ("client_email", .str "e2")]) ]

/-- A discrete-fields configuration missing the mandatory `client_email`. -/
def cfgNoEmail : FConfig :=
  [ ("project_id", .str "p"), ("private_key", .str "k") ]

/-! ## Dictionary lemmas -/

theorem dictGet_dictSet_self {α : Type} (d : List (String × α)) (k : String) (v : α) :
    dictGet (dictSet d k v) k = some v := by
  induction d with
  | nil => simp [dictSet, dictGet]
  | cons p rest ih =>
      by_cases h : p.1 = k
      · simp [dictSet, dictGet, h]
      · simp [dictSet, dictGet, h, ih]

theorem dictGet_dictSet_ne {α : Type} (d : List (String × α)) (k k' : String) (v : α)
    (h : k' ≠ k) : dictGet (dictSet d k v) k' = dictGet d k' := by
  have hne : ¬(k = k') := fun hh => h hh.symm
  induction d with
  | nil => simp [dictSet, dictGet, hne]
  | cons p rest ih =>
      by_cases hp : p.1 = k
      · subst hp
        simp [dictSet, dictGet, hne]
      · simp [dictSet, dictGet, hp, ih]

/-! ## Navigation lemmas -/

/-- Distinct entries of the fixed navigation list have distinct names. -/
theorem navItems_name_inj :
    ∀ a ∈ navItems, ∀ b ∈ navItems, NavItem.name a = NavItem.name b → a = b := by
  intro a ha b hb h
  simp only [navItems, List.mem_cons, List.not_mem_nil, or_false] at ha hb
  rcases ha with rfl | rfl | rfl | rfl | rfl <;>
    rcases hb with rfl | rfl | rfl | rfl | rfl <;>
      first
      | rfl
      | exact absurd h (by decide)

/-- No entry of the fixed navigation list has both visibility flags set. -/
theorem navItems_not_both :
    ∀ a ∈ navItems, ¬(NavItem.requires_auth a = true ∧ NavItem.requires_guest a = true) := by
  intro a ha
  simp only [navItems, List.mem_cons, List.not_mem_nil, or_false] at ha
  rcases ha with rfl | rfl | rfl | rfl | rfl <;> simp [NavItem.requires_auth, NavItem.requires_guest]

/-- Membership of a rendered item in a rendered list reduces to membership of
the item, as long as names determine items. -/
theorem renderItem_mem_map_iff (current : Option String) (l : List NavItem) (item : NavItem)
    (hinj : ∀ a ∈ l, NavItem.name a = NavItem.name item → a = item) :
    renderItem current item ∈ l.map (renderItem current) ↔ item ∈ l := by
  constructor
  · intro hm
    rcases List.mem_map.mp hm with ⟨a, ha, heq⟩
    have hname : NavItem.name a = NavItem.name item := congrArg NavView.name heq
    exact (hinj a ha hname) ▸ ha
  · intro hm
    exact List.mem_map_of_mem _ hm

/-- The loop condition of `get_navigation`, as a proposition. -/
theorem navIncluded_iff (auth : Bool) (item : NavItem) :
    navIncluded auth item = true ↔
      ¬(NavItem.requires_auth item = true ∧ auth = false) ∧
      ¬(NavItem.requires_guest item = true ∧ auth = true) := by
  unfold navIncluded
  cases hra : NavItem.requires_auth item <;>
    cases hrg : NavItem.requires_guest item <;> cases auth <;> simp

/-- A rendered fixed-list item is in `get_navigation` iff the item passes
the filter. -/
theorem renderItem_mem_get_navigation (auth : Bool) (current : Option String)
    (item : NavItem) (h : item ∈ navItems) :
    renderItem current item ∈ get_navigation auth current ↔
      item ∈ navItems.filter (navIncluded auth) := by
  refine renderItem_mem_map_iff current _ item ?_
  intro a ha hname
  exact navItems_name_inj a (List.mem_of_mem_filter ha) item h hname

/-- C1. For every authentication flag and every entry of the fixed navigation
list, `get_navigation` includes the entry iff
NOT(requires_auth AND NOT authenticated) AND NOT(requires_guest AND
authenticated); in particular a requires_auth entry is absent for
unauthenticated users and present for authenticated ones, and symmetrically
for requires_guest. -/
theorem C1_get_navigation_filter (auth : Bool) (current : Option String)
    (item : NavItem) (h : item ∈ navItems) :
    (renderItem current item ∈ get_navigation auth current ↔
      ¬(NavItem.requires_auth item = true ∧ auth = false) ∧
      ¬(NavItem.requires_guest item = true ∧ auth = true)) ∧
    (NavItem.requires_auth item = true →
      renderItem current item ∉ get_navigation false current ∧
      renderItem current item ∈ get_navigation true current) ∧
    (NavItem.requires_guest item = true →
      renderItem current item ∈ get_navigation false current ∧
      renderItem current item ∉ get_navigation true current) := by
  have hmem : ∀ b : Bool, renderItem current item ∈ get_navigation b current ↔
      item ∈ navItems ∧ navIncluded b item = true := by
    intro b
    rw [renderItem_mem_get_navigation b current item h, List.mem_filter]
  refine ⟨?_, ?_, ?_⟩
  · rw [hmem auth]
    simp only [h, true_and]
    exact navIncluded_iff auth item
  · intro hra
    have hrg : NavItem.requires_guest item = false := by
      cases hrg : NavItem.requires_guest item
      · rfl
      · exact absurd ⟨hra, hrg⟩ (navItems_not_both item h)
    constructor
    · rw [hmem false]
      rintro ⟨-, hinc⟩
      simp [navIncluded, hra] at hinc
    · rw [hmem true]
      exact ⟨h, by simp [navIncluded, hra, hrg]⟩
  · intro hrg
    have hra : NavItem.requires_auth item = false := by
      cases hra : NavItem.requires_auth item
      · rfl
      · exact absurd ⟨hra, hrg⟩ (navItems_not_both item h)
    constructor
    · rw [hmem false]
      exact ⟨h, by simp [navIncluded, hra, hrg]⟩
    · rw [hmem true]
      rintro ⟨-, hinc⟩
      simp [navIncluded, hrg] at hinc

/-- Witness for C1 at the Dashboard entry. -/
theorem C1_get_navigation_filter_witness :
    NavItem.mk "dashboard" "dashboard.index" "Dashboard" true false "📊" Option.none ∈ navItems ∧
    renderItem Option.none
        (NavItem.mk "dashboard" "dashboard.index" "Dashboard" true false "📊" Option.none) ∈
      get_navigation true Option.none ∧
    renderItem Option.none
        (NavItem.mk "dashboard" "dashboard.index" "Dashboard" true false "📊" Option.none) ∉
      get_navigation false Option.none := by
  have h : NavItem.mk "dashboard" "dashboard.index" "Dashboard" true false "📊" Option.none
      ∈ navItems := by simp [navItems]
  have hc := (C1_get_navigation_filter true Option.none _ h).2.1 rfl
  have hc' := (C1_get_navigation_filter false Option.none _ h).2.1 rfl
  exact ⟨h, hc.2, hc'.1⟩

/-- C5. `should_redirect` matches the route key against the fixed list by
exact route-key string; a matched entry redirects to sign-in when it requires
auth and the user is unauthenticated, to the dashboard when it requires guest
and the user is authenticated, otherwise (and for unmatched keys) no
redirect; including the three concrete cases of the spec. -/
theorem C5_should_redirect (auth : Bool) (key : String) :
    ((∀ item ∈ navItems, NavItem.endpoint item ≠ key) →
      should_redirect auth key = Option.none) ∧
    (∀ item ∈ navItems, NavItem.endpoint item = key →
      should_redirect auth key =
        (if NavItem.requires_auth item && !auth then some "auth.signin"
         else if NavItem.requires_guest item && auth then some "dashboard.index"
         else Option.none)) ∧
    should_redirect false "dashboard.index" = some "auth.signin" ∧
    should_redirect true "auth.signin" = some "dashboard.index" ∧
    should_redirect true "developers.index" = Option.none := by
  refine ⟨?_, ?_, rfl, rfl, rfl⟩
  · intro hnone
    unfold should_redirect
    rw [List.find?_eq_none.mpr]
    intro a ha
    simpa using hnone a ha
  · intro item him heq
    simp only [navItems, List.mem_cons, List.not_mem_nil, or_false] at him
    rcases him with rfl | rfl | rfl | rfl | rfl <;>
      (simp only [NavItem.endpoint] at heq; subst heq; cases auth <;> rfl)

/-- Witness for C5 at an unmatched route key. -/
theorem C5_should_redirect_witness :
    (∀ item ∈ navItems, NavItem.endpoint item ≠ "unknown.route") ∧
    should_redirect true "unknown.route" = Option.none := by
  have hb : ∀ item ∈ navItems, NavItem.endpoint item ≠ "unknown.route" := by
    intro a ha
    simp only [navItems, List.mem_cons, List.not_mem_nil, or_false] at ha
    rcases ha with rfl | rfl | rfl | rfl | rfl <;> decide
  exact ⟨hb, (C5_should_redirect true "unknown.route").1 hb⟩

/-- C6. `get_breadcrumbs` always starts with the Home entry; a second
element (the mapped title with that endpoint's URL) is appended iff the
route key is in the fixed lookup table and is not the Home route; for
`"main.index"` the result is exactly the Home entry. -/
theorem C6_get_breadcrumbs (key : String) :
    get_breadcrumbs key ≠ [] ∧
    (get_breadcrumbs key).head? = some ⟨"Home", "/", "main.index"⟩ ∧
    ((get_breadcrumbs key).length = 2 ↔
      hasKey endpoint_map key = true ∧ key ≠ "main.index") ∧
    (∀ title, dictGet endpoint_map key = some title → key ≠ "main.index" →
      get_breadcrumbs key =
        [⟨"Home", "/", "main.index"⟩, ⟨title, get_url_for_endpoint key, key⟩]) ∧
    get_breadcrumbs "main.index" = [⟨"Home", "/", "main.index"⟩] := by
  by_cases hk : hasKey endpoint_map key = true ∧ ¬(key = "main.index")
  · have hcond : (hasKey endpoint_map key && !(key == "main.index")) = true := by
      simp [hk.1, hk.2]
    refine ⟨?_, ?_, ?_, ?_, rfl⟩ <;>
      simp only [get_breadcrumbs, hcond, if_true]
    · simp
    · simp
    · simp [hk.1, hk.2]
    · intro title ht _
      simp [ht]
  · have hcond : (hasKey endpoint_map key && !(key == "main.index")) = false := by
      rcases Decidable.not_and_iff_or_not.mp hk with hh | hh
      · simp [Bool.eq_false_iff.mpr hh]
      · simp [Decidable.not_not.mp hh]
    refine ⟨?_, ?_, ?_, ?_, rfl⟩ <;>
      simp only [get_breadcrumbs, hcond, Bool.false_eq_true, if_false]
    · simp
    · simp
    · simpa using hk
    · intro title ht hne
      exact absurd ⟨by simp [hasKey, ht], hne⟩ hk

/-! ## Registry theorems -/

/-- C2. `register_sdk` stores the adapter (overwriting any prior entry) and
returns true exactly when `initialize` returned true; a false return or a
raised fault leaves the registry unchanged and yields false, the fault being
caught; in particular for a previously unregistered name a failed
registration leaves `get_sdk` at none and `is_initialized` at false. -/
theorem C2_register_sdk (σ : Type) (ops : SDKOps σ) (reg : Registry σ)
    (name : String) (sdk : σ) (config : Option (List (String × String))) :
    (∀ sdk', SDKOps.init ops sdk config = .ok (true, sdk') →
      register_sdk ops reg name sdk config = (true, dictSet reg name sdk') ∧
      get_sdk (dictSet reg name sdk') name = some sdk') ∧
    (∀ sdk', SDKOps.init ops sdk config = .ok (false, sdk') →
      register_sdk ops reg name sdk config = (false, reg)) ∧
    (∀ e, SDKOps.init ops sdk config = .error e →
      register_sdk ops reg name sdk config = (false, reg)) ∧
    ((register_sdk ops reg name sdk config).1 = false →
      get_sdk reg name = Option.none →
      get_sdk (register_sdk ops reg name sdk config).2 name = Option.none ∧
      manager_is_initialized ops (register_sdk ops reg name sdk config).2 name = false) := by
  refine ⟨?_, ?_, ?_, ?_⟩
  · intro sdk' hinit
    exact ⟨by simp [register_sdk, hinit], dictGet_dictSet_self reg name sdk'⟩
  · intro sdk' hinit
    simp [register_sdk, hinit]
  · intro e hinit
    simp [register_sdk, hinit]
  · intro hfalse hnone
    cases hinit : SDKOps.init ops sdk config with
    | ok p =>
        obtain ⟨b, sdk'⟩ := p
        cases b
        · simp only [register_sdk, hinit]
          exact ⟨hnone, by simp [manager_is_initialized, hnone]⟩
        · simp [register_sdk, hinit] at hfalse
    | error e =>
        simp only [register_sdk, hinit]
        exact ⟨hnone, by simp [manager_is_initialized, hnone]⟩

/-- Witness for C2: a successful registration stores the adapter. -/
theorem C2_register_sdk_witness :
    SDKOps.init natOps 0 Option.none = .ok (true, 1) ∧
    register_sdk natOps [] "firebase" 0 Option.none = (true, [("firebase", 1)]) ∧
    get_sdk (dictSet [] "firebase" (1 : Nat)) "firebase" = some 1 := by
  have h := (C2_register_sdk Nat natOps [] "firebase" 0 Option.none).1 1 rfl
  exact ⟨rfl, h.1, h.2⟩

/-- The cleanup loop succeeds when every registered adapter's cleanup
returns (rather than raises), and then visits every adapter. -/
theorem cleanupLoop_ok (σ : Type) (ops : SDKOps σ) :
    ∀ (l : List (String × σ)) (done : Registry σ),
      (∀ p ∈ l, ∃ b s', SDKOps.cleanup ops p.2 = .ok (b, s')) →
      ∃ res, cleanupLoop ops done l = .ok res ∧ res.length = done.length + l.length := by
  intro l
  induction l with
  | nil =>
      intro done _
      exact ⟨done, rfl, by simp [cleanupLoop]⟩
  | cons p rest ih =>
      intro done h
      obtain ⟨b, s', hcl⟩ := h p (List.mem_cons_self p rest)
      obtain ⟨res, hres, hlen⟩ :=
        ih (done ++ [(p.1, s')]) (fun q hq => h q (List.mem_cons_of_mem p hq))
      refine ⟨res, ?_, ?_⟩
      · simpa [cleanupLoop, hcl] using hres
      · simp at hlen
        simp [hlen]
        omega

/-- C3 (amended). When no registered adapter's cleanup raises, `cleanup_all`
invokes every cleanup and clears the registry, so `get_status` of the result
is the empty mapping; a cleanup returning false does not halt processing. A
fault-raising cleanup, however, propagates and leaves the registry uncleared
(see the counterexample). -/
theorem C3_cleanup_all_amended (σ : Type) (ops : SDKOps σ) (reg : Registry σ)
    (h : ∀ p ∈ reg, ∃ b s', SDKOps.cleanup ops p.2 = .ok (b, s')) :
    (∃ res, cleanupLoop ops [] reg = .ok res ∧ res.length = reg.length) ∧
    cleanup_all ops reg = .ok [] ∧
    get_status ops ([] : Registry σ) = [] := by
  obtain ⟨res, hres, hlen⟩ := cleanupLoop_ok σ ops reg [] h
  refine ⟨⟨res, hres, by simpa using hlen⟩, ?_, rfl⟩
  simp [cleanup_all, hres]

/-- Counterexample to C3 as stated: with a first adapter whose cleanup raises
and a second whose cleanup would succeed (bumping its state), `cleanup_all`
propagates the fault, never invokes the second cleanup, and leaves the
registry uncleared — so the subsequent status is not the empty mapping. -/
theorem C3_cleanup_all_counterexample :
    SDKOps.cleanup natOps 0 = .error "boom" ∧
    SDKOps.cleanup natOps 1 = .ok (true, 101) ∧
    cleanup_all natOps [("a", 0), ("b", 1)] = .error ("boom", [("a", 0), ("b", 1)]) ∧
    get_status natOps [("a", 0), ("b", 1)] ≠ [] := by
  refine ⟨rfl, rfl, rfl, by simp [get_status]⟩

/-- Witness for the amended C3 on a registry whose cleanups all return. -/
theorem C3_cleanup_all_witness :
    (∀ p ∈ [("b", (1 : Nat))], ∃ b s', SDKOps.cleanup natOps p.2 = .ok (b, s')) ∧
    cleanup_all natOps [("b", 1)] = .ok [] := by
  have h : ∀ p ∈ [("b", (1 : Nat))], ∃ b s', SDKOps.cleanup natOps p.2 = .ok (b, s') := by
    intro p hp
    simp only [List.mem_singleton] at hp
    subst hp
    exact ⟨true, 101, rfl⟩
  exact ⟨h, (C3_cleanup_all_amended Nat natOps [("b", 1)] h).2.1⟩

/-- Witness for C6 at the Dashboard route key. -/
theorem C6_get_breadcrumbs_witness :
    dictGet endpoint_map "dashboard.index" = some "Dashboard" ∧
    get_breadcrumbs "dashboard.index" =
      [⟨"Home", "/", "main.index"⟩, ⟨"Dashboard", "/dashboard", "dashboard.index"⟩] := by
  have h := (C6_get_breadcrumbs "dashboard.index").2.2.2.1 "Dashboard" rfl (by decide)
  exact ⟨rfl, by simpa using h⟩

/-! ## Firebase adapter theorems -/

theorem dictGet_some_isEmpty_false {α : Type} (d : List (String × α)) (k : String) (v : α)
    (h : dictGet d k = some v) : d.isEmpty = false := by
  cases d with
  | nil => simp [dictGet] at h
  | cons p rest => rfl

theorem maskTop_private_key (c : FConfig) (h : hasKey c "private_key" = true) :
    dictGet (maskTop c) "private_key" = some (.str "***HIDDEN***") := by
  simp only [maskTop, h, if_true]
  exact dictGet_dictSet_self c "private_key" _

theorem maskTop_other (c : FConfig) (k : String) (h : k ≠ "private_key") :
    dictGet (maskTop c) k = dictGet c k := by
  by_cases hk : hasKey c "private_key" = true
  · simp only [maskTop, hk, if_true]
    exact dictGet_dictSet_ne c "private_key" k _ h
  · simp only [maskTop, hk, if_false, Bool.not_eq_true] at *
    simp [maskTop, hk]

/-- Masking behaviour of `get_config` when the service-account value, if any,
is a structured blob. -/
theorem get_config_masks (sdk : FirebaseSDK)
    (hb : ∀ v, dictGet sdk.config "service_account_json" = some v →
      ∃ d, v = PyVal.dict d) :
    ∃ safe, FirebaseSDK.get_config sdk = .ok safe ∧
      (hasKey sdk.config "private_key" = true →
        dictGet safe "private_key" = some (.str "***HIDDEN***")) ∧
      (∀ d, dictGet sdk.config "service_account_json" = some (.dict d) →
        hasKey d "private_key" = true →
        ∃ d', dictGet safe "service_account_json" = some (.dict d') ∧
          dictGet d' "private_key" = some (.str "***HIDDEN***") ∧
          ∀ k, k ≠ "private_key" → dictGet d' k = dictGet d k) ∧
      (∀ k, k ≠ "private_key" → k ≠ "service_account_json" →
        dictGet safe k = dictGet sdk.config k) := by
  have hEqSa : dictGet (maskTop sdk.config) "service_account_json" =
      dictGet sdk.config "service_account_json" :=
    maskTop_other sdk.config "service_account_json" (by decide)
  simp only [FirebaseSDK.get_config, hEqSa]
  cases hsa : dictGet sdk.config "service_account_json" with
  | none =>
      refine ⟨maskTop sdk.config, rfl, maskTop_private_key sdk.config, ?_, ?_⟩
      · intro d hd
        cases hd
      · intro k hk _
        exact maskTop_other sdk.config k hk
  | some v =>
      obtain ⟨d, rfl⟩ := hb v hsa
      by_cases hd : hasKey d "private_key" = true
      · simp only [hd, if_true]
        refine ⟨_, rfl, ?_, ?_, ?_⟩
        · intro h
          rw [dictGet_dictSet_ne _ _ _ _ (by decide)]
          exact maskTop_private_key sdk.config h
        · intro d0 hd0 _
          obtain rfl : d = d0 := PyVal.dict.inj (Option.some.inj hd0)
          refine ⟨dictSet d "private_key" (.str "***HIDDEN***"),
            dictGet_dictSet_self _ _ _, dictGet_dictSet_self _ _ _, ?_⟩
          intro k hk
          exact dictGet_dictSet_ne _ _ _ _ hk
        · intro k hk1 hk2
          rw [dictGet_dictSet_ne _ _ _ _ hk2]
          exact maskTop_other sdk.config k hk1
      · simp only [hd, if_false]
        refine ⟨maskTop sdk.config, by simp [Bool.not_eq_true] at hd; simp [hd],
          maskTop_private_key sdk.config, ?_, ?_⟩
        · intro d0 hd0 hpk
          obtain rfl : d = d0 := PyVal.dict.inj (Option.some.inj hd0)
          exact absurd hpk hd
        · intro k hk _
          exact maskTop_other sdk.config k hk

/-- A successful `initialize` on a fresh adapter, given a config, stores
exactly that config. -/
theorem initialize_true_config (sdk : FirebaseSDK) (apps : AdminApps)
    (env : List (String × String)) (jl : String → Option (List (String × PyVal)))
    (cert : Cred → Except String Cred)
    (config : FConfig) (h0 : sdk.initialized = false)
    (h : ( FirebaseSDK.initialize sdk apps env jl cert (some config)).1 = true) :
    (( FirebaseSDK.initialize sdk apps env jl cert (some config)).2.1).config = config := by
  by_cases hc : config.isEmpty = true
  · exfalso
    revert h
    simp [ FirebaseSDK.initialize, h0, hc]
  · rw [Bool.not_eq_true] at hc
    by_cases ha : apps.isEmpty = true
    · cases hs : selectCred config with
      | none =>
          exfalso
          revert h
          simp [ FirebaseSDK.initialize, h0, hc, ha, hs]
      | some cred0 =>
          cases hcert : cert cred0 with
          | ok cred => simp [ FirebaseSDK.initialize, h0, hc, ha, hs, hcert]
          | error e =>
              exfalso
              revert h
              simp [ FirebaseSDK.initialize, h0, hc, ha, hs, hcert]
    · rw [Bool.not_eq_true] at ha
      simp [ FirebaseSDK.initialize, h0, hc, ha]

/-- The incomplete-configuration failure branch of `initialize`: non-empty
config, no app yet, and none of the three credential sources available. -/
theorem initialize_incomplete (config : FConfig) (env : List (String × String))
    (jl : String → Option (List (String × PyVal)))
    (cert : Cred → Except String Cred)
    (hne : config.isEmpty = false)
    (h1 : hasKey config "service_account_json" = false)
    (h2 : hasKey config "credential_path" = false)
    (h3 : (hasKey config "project_id" && hasKey config "private_key"
            && hasKey config "client_email") = false) :
    FirebaseSDK.initialize FirebaseSDK.start [] env jl cert (some config) =
      (false, ⟨Option.none, config, false, some "Configuración de Firebase incompleta"⟩, []) := by
  have hs : selectCred config = Option.none := by
    simp [selectCred, h1, h2, h3]
  simp [ FirebaseSDK.initialize, FirebaseSDK.start, hne, hs]

/-- A selected credential source needs at least one key, so the config is
non-empty. -/
theorem selectCred_some_isEmpty_false (config : FConfig) (cred0 : Cred)
    (h : selectCred config = some cred0) : config.isEmpty = false := by
  cases config with
  | nil => simp [selectCred, hasKey, dictGet] at h
  | cons p rest => rfl

/-- C9. A second `initialize` call on an already-initialized adapter returns
true and changes nothing: not the stored config, app handle, flag, error,
nor the admin-library state. -/
theorem C9_initialize_idempotent (sdk : FirebaseSDK) (apps : AdminApps)
    (env : List (String × String)) (jl : String → Option (List (String × PyVal)))
    (cert : Cred → Except String Cred)
    (config? : Option FConfig) (h : sdk.initialized = true) :
    FirebaseSDK.initialize sdk apps env jl cert config? = (true, sdk, apps) := by
  simp [ FirebaseSDK.initialize, h]

/-- Witness for C9 on a concrete initialized adapter. -/
theorem C9_initialize_idempotent_witness :
    FirebaseSDK.initialize
        ⟨some (.fromPath (.str "/x")), [("k", .str "v")], true, some "old"⟩
        [] [] jlNone certAccept (some cfgBoth) =
      (true, ⟨some (.fromPath (.str "/x")), [("k", .str "v")], true, some "old"⟩, []) :=
  C9_initialize_idempotent
    ⟨some (.fromPath (.str "/x")), [("k", .str "v")], true, some "old"⟩
    [] [] jlNone certAccept (some cfgBoth) rfl

/-- C10. With an app already held by the admin library, `initialize` on a
non-empty configuration attaches to the existing (first) app and returns
true, storing the configuration without any validation of its contents (the
credential constructor is never consulted). -/
theorem C10_existing_app (sdk : FirebaseSDK) (apps : AdminApps)
    (env : List (String × String)) (jl : String → Option (List (String × PyVal)))
    (cert : Cred → Except String Cred)
    (config : FConfig) (h0 : sdk.initialized = false)
    (ha : apps.isEmpty = false) (hc : config.isEmpty = false) :
    FirebaseSDK.initialize sdk apps env jl cert (some config) =
      (true, { sdk with config := config, app := apps.head?, initialized := true }, apps) := by
  simp [ FirebaseSDK.initialize, h0, ha, hc]

/-- Witness for C10: an existing app plus a configuration lacking every
credential field still initializes successfully, even under a certificate
constructor that rejects everything. -/
theorem C10_existing_app_witness :
    FirebaseSDK.initialize FirebaseSDK.start [Cred.fromBlob .none] [] jlNone certReject
        (some [("garbage", .str "x")]) =
      (true, ⟨some (Cred.fromBlob .none), [("garbage", .str "x")], true, Option.none⟩,
       [Cred.fromBlob .none]) := by
  have h := C10_existing_app FirebaseSDK.start [Cred.fromBlob .none] [] jlNone certReject
    [("garbage", .str "x")] rfl rfl rfl
  simpa [FirebaseSDK.start] using h

/-- Counterexample to C7 as stated: a configuration offering both the
filesystem-path source and all three discrete credential fields is handled by
the path (the code's second branch), not by the discrete fields as the
spec's priority order (blob, fields, path) demands — the path credential is
the one handed to the certificate constructor and stored. -/
theorem C7_priority_counterexample :
    selectCred cfgBoth = some (.fromPath (.str "/tmp/sa.json")) ∧
    FirebaseSDK.initialize FirebaseSDK.start [] [] jlNone certAccept (some cfgBoth) =
      (true, ⟨some (.fromPath (.str "/tmp/sa.json")), cfgBoth, true, Option.none⟩,
       [.fromPath (.str "/tmp/sa.json")]) ∧
    selectCredSpecOrder cfgBoth = some (.fromFields (serviceAccountInfo cfgBoth)) ∧
    Cred.fromPath (.str "/tmp/sa.json") ≠ Cred.fromFields (serviceAccountInfo cfgBoth) := by
  refine ⟨rfl, rfl, rfl, fun h => Cred.noConfusion h⟩

/-- C7 (amended). The three configuration sources are tried in the fixed
priority order blob, filesystem path, discrete fields: a present
`service_account_json` is always the source consulted; `credential_path`
only without a blob; the discrete fields only without either. The selected
source's material is handed to the credential constructor: its success
initializes the adapter with that credential, its raised fault is caught and
makes `initialize` return false with the error recorded. With no source
available the initialization fails with an error recorded, and a parse
failure of the environment-supplied blob is a hard initialization failure. -/
theorem C7_source_priority_amended (config : FConfig) (env : List (String × String))
    (jl : String → Option (List (String × PyVal))) (cert : Cred → Except String Cred) :
    (∀ v c, dictGet config "service_account_json" = some v →
      cert (.fromBlob v) = .ok c →
      FirebaseSDK.initialize FirebaseSDK.start [] env jl cert (some config) =
        (true, ⟨some c, config, true, Option.none⟩, [c])) ∧
    (hasKey config "service_account_json" = false →
      ∀ v c, dictGet config "credential_path" = some v →
      cert (.fromPath v) = .ok c →
      FirebaseSDK.initialize FirebaseSDK.start [] env jl cert (some config) =
        (true, ⟨some c, config, true, Option.none⟩, [c])) ∧
    (hasKey config "service_account_json" = false →
      hasKey config "credential_path" = false →
      (hasKey config "project_id" && hasKey config "private_key"
        && hasKey config "client_email") = true →
      ∀ c, cert (.fromFields (serviceAccountInfo config)) = .ok c →
      FirebaseSDK.initialize FirebaseSDK.start [] env jl cert (some config) =
        (true, ⟨some c, config, true, Option.none⟩, [c])) ∧
    (∀ cred0 e, selectCred config = some cred0 → cert cred0 = .error e →
      FirebaseSDK.initialize FirebaseSDK.start [] env jl cert (some config) =
        (false, ⟨Option.none, config, false,
          some ("Error inicializando Firebase SDK: " ++ e)⟩, [])) ∧
    (config.isEmpty = false →
      hasKey config "service_account_json" = false →
      hasKey config "credential_path" = false →
      (hasKey config "project_id" && hasKey config "private_key"
        && hasKey config "client_email") = false →
      FirebaseSDK.initialize FirebaseSDK.start [] env jl cert (some config) =
        (false, ⟨Option.none, config, false, some "Configuración de Firebase incompleta"⟩, [])) ∧
    (∀ s, dictGet env "FIREBASE_SERVICE_ACCOUNT_JSON" = some s → (s == "") = false →
      jl s = Option.none →
      FirebaseSDK.initialize FirebaseSDK.start [] env jl cert Option.none =
        (false, ⟨Option.none, [], false,
          some "Error parsing FIREBASE_SERVICE_ACCOUNT_JSON"⟩, [])) := by
  refine ⟨?_, ?_, ?_, ?_, ?_, ?_⟩
  · intro v c hv hcert
    have hne := dictGet_some_isEmpty_false config "service_account_json" v hv
    have hk : hasKey config "service_account_json" = true := by simp [hasKey, hv]
    have hs : selectCred config = some (.fromBlob v) := by
      simp [selectCred, hk, hv]
    simp [ FirebaseSDK.initialize, FirebaseSDK.start, hne, hs, hcert]
  · intro hk v c hv hcert
    have hne := dictGet_some_isEmpty_false config "credential_path" v hv
    have hkp : hasKey config "credential_path" = true := by rw [hasKey, hv]; rfl
    have hs : selectCred config = some (.fromPath v) := by
      simp [selectCred, hk, hkp, hv]
    simp [ FirebaseSDK.initialize, FirebaseSDK.start, hne, hs, hcert]
  · intro hk1 hk2 hk3 c hcert
    have hne : config.isEmpty = false := by
      rcases Bool.and_eq_true_iff.mp hk3 with ⟨h12, -⟩
      rcases Bool.and_eq_true_iff.mp h12 with ⟨hpid, -⟩
      rcases Option.isSome_iff_exists.mp hpid with ⟨v, hv⟩
      exact dictGet_some_isEmpty_false config "project_id" v hv
    have hs : selectCred config = some (.fromFields (serviceAccountInfo config)) := by
      simp [selectCred, hk1, hk2, hk3]
    simp [ FirebaseSDK.initialize, FirebaseSDK.start, hne, hs, hcert]
  · intro cred0 e hsel hcert
    have hne := selectCred_some_isEmpty_false config cred0 hsel
    simp [ FirebaseSDK.initialize, FirebaseSDK.start, hne, hsel, hcert]
  · intro hne h1 h2 h3
    exact initialize_incomplete config env jl cert hne h1 h2 h3
  · intro s hs hnz hj
    simp [ FirebaseSDK.initialize, FirebaseSDK.start, FirebaseSDK.load_from_env, hs, hnz, hj]

/-- Witness for the amended C7: a path-only configuration is handled by the
filesystem-path source when the certificate constructor accepts it, and a
blob whose material the constructor rejects is a caught initialization
failure. -/
theorem C7_source_priority_witness :
    hasKey [(("credential_path" : String), PyVal.str "/x")] "service_account_json" = false ∧
    dictGet [(("credential_path" : String), PyVal.str "/x")] "credential_path" =
      some (.str "/x") ∧
    certAccept (.fromPath (.str "/x")) = .ok (.fromPath (.str "/x")) ∧
    FirebaseSDK.initialize FirebaseSDK.start [] [] jlNone certAccept
        (some [("credential_path", .str "/x")]) =
      (true, ⟨some (.fromPath (.str "/x")), [("credential_path", .str "/x")], true,
        Option.none⟩, [.fromPath (.str "/x")]) ∧
    selectCred [(("service_account_json" : String), PyVal.none)] =
      some (.fromBlob .none) ∧
    certReject (.fromBlob .none) = .error "invalid credential" ∧
    FirebaseSDK.initialize FirebaseSDK.start [] [] jlNone certReject
        (some [("service_account_json", PyVal.none)]) =
      (false, ⟨Option.none, [("service_account_json", PyVal.none)], false,
        some ("Error inicializando Firebase SDK: " ++ "invalid credential")⟩, []) := by
  refine ⟨rfl, rfl, rfl, ?_, rfl, rfl, ?_⟩
  · exact (C7_source_priority_amended [("credential_path", .str "/x")] [] jlNone
      certAccept).2.1 rfl (.str "/x") (.fromPath (.str "/x")) rfl rfl
  · exact (C7_source_priority_amended [("service_account_json", PyVal.none)] [] jlNone
      certReject).2.2.2.1 (.fromBlob .none) "invalid credential" rfl rfl

/-- C8. Initializing via the discrete credential fields with any of the
three mandatory fields absent (in particular `client_email`) returns false,
with a non-empty error message about the incomplete configuration recorded
and inspectable through `get_error`; likewise on the environment route when
`FIREBASE_CLIENT_EMAIL` is unset. Neither path reaches the credential
constructor, and the modelled `initialize` is total: every internal fault is
caught, none reaches the caller. -/
theorem C8_missing_mandatory_field (config : FConfig) (env : List (String × String))
    (jl : String → Option (List (String × PyVal))) (cert : Cred → Except String Cred) :
    (config.isEmpty = false →
      hasKey config "service_account_json" = false →
      hasKey config "credential_path" = false →
      (hasKey config "project_id" = false ∨ hasKey config "private_key" = false ∨
        hasKey config "client_email" = false) →
      ( FirebaseSDK.initialize FirebaseSDK.start [] env jl cert (some config)).1 = false ∧
      FirebaseSDK.get_error
          ( FirebaseSDK.initialize FirebaseSDK.start [] env jl cert (some config)).2.1 =
        some "Configuración de Firebase incompleta" ∧
      "Configuración de Firebase incompleta" ≠ "") ∧
    (dictGet env "FIREBASE_SERVICE_ACCOUNT_JSON" = Option.none →
      dictGet env "FIREBASE_CLIENT_EMAIL" = Option.none →
      ( FirebaseSDK.initialize FirebaseSDK.start [] env jl cert Option.none).1 = false ∧
      FirebaseSDK.get_error
          ( FirebaseSDK.initialize FirebaseSDK.start [] env jl cert Option.none).2.1 =
        some "Configuración mínima de Firebase no encontrada en variables de entorno" ∧
      "Configuración mínima de Firebase no encontrada en variables de entorno" ≠ "") := by
  constructor
  · intro hne h1 h2 h3
    have h3' : (hasKey config "project_id" && hasKey config "private_key"
        && hasKey config "client_email") = false := by
      rcases h3 with h | h | h <;> simp [h]
    rw [initialize_incomplete config env jl cert hne h1 h2 h3']
    exact ⟨rfl, rfl, by decide⟩
  · intro henv hce
    have hload : FirebaseSDK.load_from_env ⟨Option.none, [], false, Option.none⟩ env jl =
        ([], ⟨Option.none, [], false,
          some "Configuración mínima de Firebase no encontrada en variables de entorno"⟩) := by
      simp [FirebaseSDK.load_from_env, FirebaseSDK.load_discrete_env,
        henv, hce, PyVal.truthy, dictGet]
    refine ⟨?_, ?_, by decide⟩ <;>
      simp [ FirebaseSDK.initialize, FirebaseSDK.start, hload, FirebaseSDK.get_error]

/-- Witness for C8 on a configuration missing `client_email`. -/
theorem C8_missing_mandatory_field_witness :
    cfgNoEmail.isEmpty = false ∧
    hasKey cfgNoEmail "client_email" = false ∧
    ( FirebaseSDK.initialize FirebaseSDK.start [] [] jlNone certAccept (some cfgNoEmail)).1
      = false ∧
    FirebaseSDK.get_error
        ( FirebaseSDK.initialize FirebaseSDK.start [] [] jlNone certAccept
          (some cfgNoEmail)).2.1 =
      some "Configuración de Firebase incompleta" := by
  have h := (C8_missing_mandatory_field cfgNoEmail [] jlNone certAccept).1 rfl rfl rfl
    (Or.inr (Or.inr rfl))
  exact ⟨rfl, rfl, h.1, h.2.1⟩

/-- C4. An adapter successfully initialized with a configuration holding
private-key material (top-level or inside the service-account blob) never
returns that literal material from `get_config`: the masked placeholder
stands in its place and every other field is returned as stored. -/
theorem C4_get_config_redacts (config : FConfig) (apps : AdminApps)
    (env : List (String × String)) (jl : String → Option (List (String × PyVal)))
    (cert : Cred → Except String Cred)
    (hb : ∀ v, dictGet config "service_account_json" = some v → ∃ d, v = PyVal.dict d)
    (hinit : ( FirebaseSDK.initialize FirebaseSDK.start apps env jl cert
      (some config)).1 = true) :
    ∃ safe, FirebaseSDK.get_config
        ( FirebaseSDK.initialize FirebaseSDK.start apps env jl cert (some config)).2.1 =
          .ok safe ∧
      (hasKey config "private_key" = true →
        dictGet safe "private_key" = some (.str "***HIDDEN***")) ∧
      (∀ d, dictGet config "service_account_json" = some (.dict d) →
        hasKey d "private_key" = true →
        ∃ d', dictGet safe "service_account_json" = some (.dict d') ∧
          dictGet d' "private_key" = some (.str "***HIDDEN***") ∧
          ∀ k, k ≠ "private_key" → dictGet d' k = dictGet d k) ∧
      (∀ k, k ≠ "private_key" → k ≠ "service_account_json" →
        dictGet safe k = dictGet config k) := by
  have hcfg := initialize_true_config FirebaseSDK.start apps env jl cert config rfl hinit
  have hmask := get_config_masks
    ( FirebaseSDK.initialize FirebaseSDK.start apps env jl cert (some config)).2.1
    (by rw [hcfg]; exact hb)
  rw [hcfg] at hmask
  exact hmask

/-- Witness for C4 on a configuration with both a top-level private key and
one inside the service-account blob. -/
theorem C4_get_config_redacts_witness :
    ( FirebaseSDK.initialize FirebaseSDK.start [] [] jlNone certAccept
      (some cfgSecret)).1 = true ∧
    ∃ safe, FirebaseSDK.get_config
        ( FirebaseSDK.initialize FirebaseSDK.start [] [] jlNone certAccept
          (some cfgSecret)).2.1 = .ok safe ∧
      dictGet safe "private_key" = some (.str "***HIDDEN***") ∧
      ∃ d', dictGet safe "service_account_json" = some (.dict d') ∧
        dictGet d' "private_key" = some (.str "***HIDDEN***") := by
  have hb : ∀ v, dictGet cfgSecret "service_account_json" = some v →
      ∃ d, v = PyVal.dict d := by
    intro v hv
    have h0 : dictGet cfgSecret "service_account_json" =
        some (PyVal.dict [("private_key", .str "SECRET-BLOB"), ("client_email", .str "e2")]) :=
      rfl
    rw [h0] at hv
    exact ⟨_, (Option.some.inj hv).symm⟩
  obtain ⟨safe, h1, h2, h3, -⟩ := C4_get_config_redacts cfgSecret [] [] jlNone certAccept hb rfl
  obtain ⟨d', hd1, hd2, -⟩ := h3
    [("private_key", .str "SECRET-BLOB"), ("client_email", .str "e2")] rfl rfl
  exact ⟨rfl, safe, h1, h2 rfl, d', hd1, hd2⟩

end TruckStop
